import Mathlib

/-!
Verification of the `samplestore` billing module
(`sample_project/samplestore/models.py`).

The Python code is embedded shallowly:

* Python keyword-argument dictionaries (`payment_data`, `billing_data`,
  `kwargs`, remote payloads) become association lists `Dict` with
  Python-dict semantics: `dlookup` is key lookup, `dinsert` is
  `d[k] = v`, `dupdate` is `d.update(e)`, `derase` is the removal
  effect of `d.pop(k)`.
* The relational store becomes an explicit `DB` value holding the
  `Customer`, `CustomerProfile` and `CustomerPaymentProfile` rows; the
  framework persists only the declared model columns, which we model by
  restricting stored attribute dictionaries to `paymentFields`.
* Each gateway call (`add_profile`, `create_payment_profile`, ...) is an
  input to the embedded operation (its success flag and returned
  identifiers) and is recorded in an explicit trace of `RemoteCall`s.
* A Python `raise` becomes an `Except` error outcome; writes performed
  before the raise are kept in the returned `DB`, exactly as an uncaught
  exception leaves earlier ORM writes in place.
-/

/-- Python-style string dictionary, as an association list. -/
abbrev Dict := List (String × String)

/-- Dictionary lookup: `d[k]` as an `Option`. -/
def dlookup : Dict → String → Option String
  | [], _ => none
  | kv :: rest, k => if kv.1 == k then some kv.2 else dlookup rest k

/-- Dictionary lookup with a default: `d.get(k, dflt)`. -/
def dlookupD (d : Dict) (k : String) (dflt : String) : String :=
  (dlookup d k).getD dflt

/-- Key membership: `k in d`. -/
def dmem (d : Dict) (k : String) : Bool :=
  (dlookup d k).isSome

/-- Key removal: the effect of `d.pop(k)` on `d`. -/
def derase : Dict → String → Dict
  | [], _ => []
  | kv :: rest, k => if kv.1 == k then derase rest k else kv :: derase rest k

/-- Assignment `d[k] = v` (single binding for `k` afterwards). -/
def dinsert (d : Dict) (k : String) (v : String) : Dict :=
  derase d k ++ [(k, v)]

/-- Python `d.update(e)`: assign every binding of `e` into `d`. -/
def dupdate (d e : Dict) : Dict :=
  e.foldl (fun acc kv => dinsert acc kv.1 kv.2) d

/-- Restriction of an attribute dictionary to a set of column names:
the framework stores only declared model fields. -/
def drestrict : Dict → List String → Dict
  | [], _ => []
  | kv :: rest, ks =>
    if kv.1 ∈ ks then kv :: drestrict rest ks else drestrict rest ks

theorem dlookup_append (d1 d2 : Dict) (k : String) :
    dlookup (d1 ++ d2) k =
      match dlookup d1 k with
      | some v => some v
      | none => dlookup d2 k := by
  induction d1 with
  | nil => simp [dlookup]
  | cons kv rest ih =>
    by_cases h : kv.1 = k
    · simp [dlookup, h]
    · simp [dlookup, h, ih]

theorem dlookup_derase_self (d : Dict) (k : String) :
    dlookup (derase d k) k = none := by
  induction d with
  | nil => simp [dlookup, derase]
  | cons kv rest ih =>
    by_cases h : kv.1 = k
    · simp [derase, h, ih]
    · simp [derase, h, dlookup, ih]

theorem dlookup_derase_ne (d : Dict) (k k2 : String) (h : k ≠ k2) :
    dlookup (derase d k2) k = dlookup d k := by
  induction d with
  | nil => simp [derase]
  | cons kv rest ih =>
    by_cases hk : kv.1 = k2
    · have hne : k2 ≠ k := fun he => h he.symm
      simp [derase, hk, dlookup, hne, ih]
    · simp [derase, hk, dlookup, ih]

theorem dlookup_dinsert_self (d : Dict) (k : String) (v : String) :
    dlookup (dinsert d k v) k = some v := by
  rw [dinsert, dlookup_append, dlookup_derase_self]
  simp [dlookup]

theorem dlookup_dinsert_ne (d : Dict) (k k2 v : String) (h : k ≠ k2) :
    dlookup (dinsert d k2 v) k = dlookup d k := by
  rw [dinsert, dlookup_append, dlookup_derase_ne d k k2 h]
  cases hl : dlookup d k with
  | some v2 => rfl
  | none =>
    have hne : k2 ≠ k := fun he => h he.symm
    simp [dlookup, hne]

theorem dmem_dinsert (d : Dict) (k k2 v : String) :
    dmem (dinsert d k2 v) k = (k == k2 || dmem d k) := by
  by_cases h : k = k2
  · subst h
    simp [dmem, dlookup_dinsert_self]
  · rw [dmem, dlookup_dinsert_ne d k k2 v h, dmem]
    simp [h]

theorem dmem_cons (kv : String × String) (rest : Dict) (k : String) :
    dmem (kv :: rest) k = (k == kv.1 || dmem rest k) := by
  by_cases h : kv.1 = k
  · simp [dmem, dlookup, h]
  · have hne : k ≠ kv.1 := fun he => h he.symm
    simp [dmem, dlookup, h, hne]

theorem dlookup_dupdate_not_mem (d e : Dict) (k : String)
    (h : dmem e k = false) :
    dlookup (dupdate d e) k = dlookup d k := by
  induction e generalizing d with
  | nil => rfl
  | cons kv rest ih =>
    rw [dmem_cons] at h
    have hk : k ≠ kv.1 := by
      intro he
      simp [he] at h
    have hrest : dmem rest k = false := by
      cases hdm : dmem rest k
      · rfl
      · simp [hdm] at h
    show dlookup (dupdate (dinsert d kv.1 kv.2) rest) k = dlookup d k
    rw [ih (dinsert d kv.1 kv.2) hrest, dlookup_dinsert_ne d k kv.1 kv.2 hk]

theorem dlookup_dupdate_mem (d e : Dict) (k v : String)
    (he : (e.map Prod.fst).Nodup) (hv : dlookup e k = some v) :
    dlookup (dupdate d e) k = some v := by
  induction e generalizing d with
  | nil => simp [dlookup] at hv
  | cons kv rest ih =>
    rw [List.map_cons, List.nodup_cons] at he
    by_cases hk : kv.1 = k
    · have hv1 : v = kv.2 := by
        simp [dlookup, hk] at hv
        exact hv.symm
      have hrest : dmem rest k = false := by
        cases hdm : dmem rest k
        · rfl
        · exfalso
          apply he.1
          subst hk
          simp [dmem] at hdm
          clear hv ih he
          induction rest with
          | nil => simp [dlookup] at hdm
          | cons kv2 rest2 ih2 =>
            by_cases h2 : kv2.1 = kv.1
            · simp [h2]
            · simp [dlookup, h2] at hdm
              simp [ih2 hdm]
      show dlookup (dupdate (dinsert d kv.1 kv.2) rest) k = some v
      rw [dlookup_dupdate_not_mem _ rest k hrest, hk, dlookup_dinsert_self, hv1]
    · have hv2 : dlookup rest k = some v := by
        simpa [dlookup, hk] using hv
      show dlookup (dupdate (dinsert d kv.1 kv.2) rest) k = some v
      exact ih (dinsert d kv.1 kv.2) he.2 hv2

theorem dmem_dupdate (d e : Dict) (k : String) :
    dmem (dupdate d e) k = (dmem d k || dmem e k) := by
  induction e generalizing d with
  | nil => simp [dupdate, dmem, dlookup]
  | cons kv rest ih =>
    show dmem (dupdate (dinsert d kv.1 kv.2) rest) k = _
    rw [ih (dinsert d kv.1 kv.2), dmem_dinsert, dmem_cons]
    cases hb : k == kv.1 <;> cases dmem d k <;> cases dmem rest k <;> rfl

theorem dlookup_dupdate_congr_base (d d2 e : Dict) (k : String)
    (h : dmem e k = true) :
    dlookup (dupdate d e) k = dlookup (dupdate d2 e) k := by
  induction e generalizing d d2 with
  | nil => simp [dmem, dlookup] at h
  | cons kv rest ih =>
    show dlookup (dupdate (dinsert d kv.1 kv.2) rest) k
        = dlookup (dupdate (dinsert d2 kv.1 kv.2) rest) k
    by_cases hrest : dmem rest k = true
    · exact ih (dinsert d kv.1 kv.2) (dinsert d2 kv.1 kv.2) hrest
    · have hrf : dmem rest k = false := by simpa using hrest
      have hk : k = kv.1 := by
        rw [dmem_cons, hrf] at h
        cases hb : (k == kv.1)
        · rw [hb] at h
          simp at h
        · simpa using hb
      rw [dlookup_dupdate_not_mem _ rest k hrf, dlookup_dupdate_not_mem _ rest k hrf,
        hk, dlookup_dinsert_self, dlookup_dinsert_self]

theorem dlookup_drestrict (d : Dict) (ks : List String) (k : String) :
    dlookup (drestrict d ks) k =
      if k ∈ ks then dlookup d k else none := by
  induction d with
  | nil => simp [dlookup, drestrict]
  | cons kv rest ih =>
    by_cases hk : kv.1 = k
    · subst hk
      by_cases hkeep : kv.1 ∈ ks
      · simp [drestrict, hkeep, dlookup]
      · simp [drestrict, hkeep, dlookup, ih]
    · by_cases hkeep : kv.1 ∈ ks
      · simp [drestrict, hkeep, dlookup, hk, ih]
      · simp [drestrict, hkeep, dlookup, hk, ih]

/-- Errors an operation can raise: `BillingError` (samplestore.errors)
on an unsuccessful gateway response, and Python's `KeyError` raised by
`kwargs.pop(key)` when `key` is absent. -/
inductive StoreErr
  | billingError
  | keyError (key : String)
deriving DecidableEq, Repr

/-- A remote CIM gateway call issued by an operation
(`authorizenet.cim`).  Recorded so that theorems can speak about which
remote calls an operation makes. -/
inductive RemoteCall
  | addProfile (user : Nat)
  | createPaymentProfile (profileId : String)
  | updatePaymentProfile (profileId : String) (paymentProfileId : String)
  | deletePaymentProfile (profileId : String) (paymentProfileId : String)
  | getProfile (profileId : String)
deriving DecidableEq, Repr

/-- A stored `CustomerProfile` row (models.py:56-61): owning user and
the gateway-issued `profile_id`. -/
structure CustomerProfileRow where
  pk : Nat
  user : Nat
  profile_id : String
deriving DecidableEq, Repr

/-- A stored `CustomerPaymentProfile` row (models.py:100-117): the
`customer_profile` foreign key plus the string columns, kept as an
attribute dictionary restricted to `paymentFields`. -/
structure CustomerPaymentProfileRow where
  customer_profile : Nat
  attrs : Dict
deriving DecidableEq, Repr

/-- The string columns of `CustomerPaymentProfile`
(models.py:106-117).  Only these are persisted by the ORM; a blank
column reads back as the empty string. -/
def paymentFields : List String :=
  ["first_name", "last_name", "company", "address", "city", "state",
   "zip", "country", "phone", "fax", "payment_profile_id", "card_number"]

/-- Column access on a stored row (missing binding = blank column). -/
def CustomerPaymentProfileRow.field (r : CustomerPaymentProfileRow)
    (k : String) : String :=
  dlookupD r.attrs k ""

/-- The local relational state: `Customer` rows (by owning user id),
`CustomerProfile` rows and `CustomerPaymentProfile` rows. -/
structure DB where
  customers : List Nat
  profiles : List CustomerProfileRow
  payments : List CustomerPaymentProfileRow
deriving DecidableEq, Repr

/-- Replace the element at index `i` (out-of-range is a no-op),
modelling an ORM row update through a fetched model instance. -/
def listModify (l : List α) (i : Nat) (f : α → α) : List α :=
  match l, i with
  | [], _ => []
  | a :: rest, 0 => f a :: rest
  | a :: rest, j + 1 => a :: listModify rest j f

/-- Update the attribute dictionary of payment row `i` in place. -/
def modifyPaymentAttrs (db : DB) (i : Nat) (f : Dict → Dict) : DB :=
  { db with payments :=
      listModify db.payments i (fun r => { r with attrs := f r.attrs }) }

/-- Masking `"XXXX%s" % v[-4:]` (models.py:96, 148): the `"XXXX"`
prefix followed by the last four characters of the card number. -/
def maskCardNumber (v : String) : String :=
  "XXXX" ++ v.drop (v.length - 4)

/-- CustomerPaymentProfileManager.create (models.py:79-97).

`kwargs` holds the remaining keyword arguments (in the source these are
`payment_profile_id` and the like); `customer_profile`,
`payment_data`, `billing_data` and `make_cim_request` are passed
explicitly, mirroring the source's `kwargs.get`/`kwargs.pop` of those
keys.  The gateway response to `create_payment_profile` is the input
pair `gwSuccess`, `gwPaymentProfileId`; the call is only issued (and
recorded) when `make_cim_request` is true.

Source steps: optional gateway call with `BillingError` on failure,
`kwargs.update(billing_data)`, `kwargs.update(payment_data)`,
`kwargs.pop('expiration_date')`, `kwargs.pop('card_code')` (each a
`KeyError` when absent), masking of `card_number` when present, then
`super().create(**kwargs)` which stores the model columns. -/
def CustomerPaymentProfileManager.create
    (db : DB) (customer_profile : CustomerProfileRow) (kwargs : Dict)
    (payment_data billing_data : Dict) (make_cim_request : Bool)
    (gwSuccess : Bool) (gwPaymentProfileId : String) :
    DB × List RemoteCall × Except StoreErr CustomerPaymentProfileRow :=
  let calls :=
    if make_cim_request then
      [RemoteCall.createPaymentProfile customer_profile.profile_id]
    else []
  if make_cim_request && !gwSuccess then
    (db, calls, Except.error StoreErr.billingError)
  else
    let kwargs1 :=
      if make_cim_request then
        dinsert kwargs "payment_profile_id" gwPaymentProfileId
      else kwargs
    let kwargs2 := dupdate (dupdate kwargs1 billing_data) payment_data
    if dmem kwargs2 "expiration_date" then
      let kwargs3 := derase kwargs2 "expiration_date"
      if dmem kwargs3 "card_code" then
        let kwargs4 := derase kwargs3 "card_code"
        let kwargs5 :=
          if dmem kwargs4 "card_number" then
            dinsert kwargs4 "card_number"
              (maskCardNumber (dlookupD kwargs4 "card_number" ""))
          else kwargs4
        let row : CustomerPaymentProfileRow :=
          { customer_profile := customer_profile.pk,
            attrs := drestrict kwargs5 paymentFields }
        ({ db with payments := db.payments ++ [row] }, calls, Except.ok row)
      else (db, calls, Except.error (StoreErr.keyError "card_code"))
    else (db, calls, Except.error (StoreErr.keyError "expiration_date"))

/-- The loop of CustomerProfileManager.create (models.py:44-51): one
`CustomerPaymentProfile.objects.create(customer_profile=instance,
payment_profile_id=..., billing_data=..., payment_data=...,
make_cim_request=False)` per returned payment profile id.  An uncaught
error aborts the loop, keeping the rows already written.  With
`make_cim_request=False` the gateway response arguments are unused; the
placeholders `true`/`""` stand for the absent call. -/
def createPaymentProfilesLoop (db : DB) (inst : CustomerProfileRow)
    (payment_data billing_data : Dict) (pids : List String) :
    DB × Except StoreErr Unit :=
  match pids with
  | [] => (db, Except.ok ())
  | pid :: rest =>
    let r := CustomerPaymentProfileManager.create db inst
      [("payment_profile_id", pid)] payment_data billing_data false true ""
    match r.2.2 with
    | Except.error e => (r.1, Except.error e)
    | Except.ok _ =>
      createPaymentProfilesLoop r.1 inst payment_data billing_data rest

/-- CustomerProfileManager.create (models.py:29-53).

The `add_profile` gateway response is the input triple `gwSuccess`,
`gwProfileId`, `gwPaymentProfileIds`.  On failure a `BillingError` is
raised before any local write; on success the profile row is stored
(its primary key modelled as the next list index) and the returned
payment profile ids are stored through the loop above. -/
def CustomerProfileManager.create
    (db : DB) (user : Nat) (payment_data billing_data : Dict)
    (gwSuccess : Bool) (gwProfileId : String)
    (gwPaymentProfileIds : List String) :
    DB × List RemoteCall × Except StoreErr CustomerProfileRow :=
  let calls := [RemoteCall.addProfile user]
  if !gwSuccess then
    (db, calls, Except.error StoreErr.billingError)
  else
    let inst : CustomerProfileRow :=
      { pk := db.profiles.length, user := user, profile_id := gwProfileId }
    let db1 := { db with profiles := db.profiles ++ [inst] }
    let r := createPaymentProfilesLoop db1 inst payment_data billing_data
      gwPaymentProfileIds
    match r.2 with
    | Except.error e => (r.1, calls, Except.error e)
    | Except.ok _ => (r.1, calls, Except.ok inst)

/-- A remote payment profile payload returned by `get_profile`
(models.py:65-73): the mandatory `payment_profile_id` plus the
optional `billing` and `credit_card` sub-dictionaries (an absent
sub-dictionary behaves as the empty one under `data.get(..., {})`). -/
structure RemotePaymentProfile where
  payment_profile_id : String
  billing : Dict
  credit_card : Dict
deriving DecidableEq, Repr

/-- CustomerPaymentProfile.sync on the in-memory instance
(models.py:123-129): `setattr` for each key of the remote `billing`
dictionary, then `card_number` from the remote `credit_card`
dictionary, defaulting to the current value. -/
def CustomerPaymentProfile.syncAttrs (attrs : Dict)
    (billing credit_card : Dict) : Dict :=
  let a1 := dupdate attrs billing
  dinsert a1 "card_number"
    (dlookupD credit_card "card_number" (dlookupD a1 "card_number" ""))

/-- The match predicate of the `get_or_create` in CustomerProfile.sync
(models.py:69-72): same `customer_profile` foreign key and same
`payment_profile_id` column. -/
def matchesPayment (cp : Nat) (pid : String)
    (r : CustomerPaymentProfileRow) : Bool :=
  r.customer_profile == cp && r.field "payment_profile_id" == pid

/-- Index of the first element satisfying a predicate. -/
def findIdxP (p : α → Bool) : List α → Option Nat
  | [] => none
  | a :: rest => if p a then some 0 else (findIdxP p rest).map (fun i => i + 1)

/-- `CustomerPaymentProfile.objects.get_or_create(customer_profile=...,
payment_profile_id=...)`: return the index of the matching row, or
append a fresh row holding just those two fields. -/
def getOrCreatePayment (db : DB) (cp : Nat) (pid : String) : DB × Nat :=
  match findIdxP (matchesPayment cp pid) db.payments with
  | some i => (db, i)
  | none =>
    ({ db with payments := db.payments ++
        [{ customer_profile := cp,
           attrs := [("payment_profile_id", pid)] }] },
     db.payments.length)

/-- One iteration of the loop in CustomerProfile.sync (models.py:68-73):
find-or-create the local row, then run its `sync` (whose `save()`
persists the model columns). -/
def CustomerProfile.syncStep (db : DB) (selfPk : Nat)
    (p : RemotePaymentProfile) : DB :=
  let r := getOrCreatePayment db selfPk p.payment_profile_id
  modifyPaymentAttrs r.1 r.2 (fun attrs =>
    drestrict (CustomerPaymentProfile.syncAttrs attrs p.billing p.credit_card)
      paymentFields)

/-- CustomerProfile.sync (models.py:63-73).  The `get_profile` gateway
response is the input pair `gwSuccess`, `gwPaymentProfiles`. -/
def CustomerProfile.sync (db : DB) (self : CustomerProfileRow)
    (gwSuccess : Bool) (gwPaymentProfiles : List RemotePaymentProfile) :
    DB × List RemoteCall × Except StoreErr Unit :=
  let calls := [RemoteCall.getProfile self.profile_id]
  if !gwSuccess then
    (db, calls, Except.error StoreErr.billingError)
  else
    (gwPaymentProfiles.foldl
       (fun acc p => CustomerProfile.syncStep acc self.pk p) db,
     calls, Except.ok ())

/-- One iteration of the `payment_data` loop in
CustomerPaymentProfile.update (models.py:144-149): skip
`expiration_date` and `card_code`, mask `card_number`, `setattr` the
rest. -/
def updatePaymentStep (a : Dict) (kv : String × String) : Dict :=
  if kv.1 != "expiration_date" && kv.1 != "card_code" then
    if kv.1 == "card_number" then dinsert a kv.1 (maskCardNumber kv.2)
    else dinsert a kv.1 kv.2
  else a

/-- CustomerPaymentProfile.update on the in-memory instance
(models.py:142-149): `setattr` for each `billing_data` item, then the
filtered and masked `setattr` for each `payment_data` item. -/
def CustomerPaymentProfile.updateAttrs (attrs : Dict)
    (payment_data billing_data : Dict) : Dict :=
  payment_data.foldl updatePaymentStep (dupdate attrs billing_data)

/-- CustomerPaymentProfile.update (models.py:136-150) acting on payment
row `i`.  The `update_payment_profile` gateway response is the input
`gwSuccess`; on failure a `BillingError` is raised before any local
mutation, on success the instance fields are set and `save()` persists
the model columns. -/
def CustomerPaymentProfile.update (db : DB) (i : Nat)
    (selfProfileId selfPaymentProfileId : String)
    (payment_data billing_data : Dict) (gwSuccess : Bool) :
    DB × List RemoteCall × Except StoreErr Unit :=
  let calls :=
    [RemoteCall.updatePaymentProfile selfProfileId selfPaymentProfileId]
  if !gwSuccess then
    (db, calls, Except.error StoreErr.billingError)
  else
    (modifyPaymentAttrs db i (fun attrs =>
       drestrict (CustomerPaymentProfile.updateAttrs attrs payment_data
           billing_data) paymentFields),
     calls, Except.ok ())

/-- CustomerPaymentProfile.delete (models.py:131-134).  The source body
is exactly one statement: the `delete_payment_profile` gateway call.
No local row is removed (there is no `super().delete()` call), so the
local state is returned unchanged; the gateway response is ignored. -/
def CustomerPaymentProfile.delete (db : DB)
    (selfProfileId selfPaymentProfileId : String) :
    DB × List RemoteCall :=
  (db, [RemoteCall.deletePaymentProfile selfProfileId selfPaymentProfileId])

/-- The `post_save` hook create_customer_profile (models.py:191-194):
`Customer.objects.get_or_create(user=instance)` unless the instance is
`None`.  Users are identified by their primary key. -/
def create_customer_profile (db : DB) (saved : Option Nat) : DB :=
  match saved with
  | none => db
  | some u =>
    if db.customers.any (fun x => x == u) then db
    else { db with customers := db.customers ++ [u] }

/-- Number of `Customer` rows for a given user. -/
def customerCount (db : DB) (u : Nat) : Nat :=
  db.customers.countP (fun x => x == u)

/-- Triggering the post-save hook `n` times for the same user. -/
def iterateHook (db : DB) (u : Nat) : Nat → DB
  | 0 => db
  | n + 1 => create_customer_profile (iterateHook db u n) (some u)

/-- Concrete example values used by witness theorems. -/
def dbEmpty : DB := { customers := [], profiles := [], payments := [] }

def cpW : CustomerProfileRow := { pk := 0, user := 7, profile_id := "prof1" }

def pdW : Dict :=
  [("card_number", "4111111111111111"), ("expiration_date", "2030-01"),
   ("card_code", "123")]

def bdW : Dict := [("first_name", "Ada"), ("city", "Paris")]

def rowW : CustomerPaymentProfileRow :=
  { customer_profile := 0,
    attrs := [("payment_profile_id", "42"), ("card_number", "XXXX1111")] }

def dbOneRow : DB := { customers := [], profiles := [cpW], payments := [rowW] }

/-- C1: when the `add_profile` gateway response reports failure,
`CustomerProfileManager.create` raises `BillingError` and the local
state is returned unchanged: no `CustomerProfile` row and no
`CustomerPaymentProfile` row is created. -/
theorem C1_profile_create_gateway_failure_no_local_writes
    (db : DB) (user : Nat) (payment_data billing_data : Dict)
    (gwProfileId : String) (gwPaymentProfileIds : List String) :
    CustomerProfileManager.create db user payment_data billing_data false
        gwProfileId gwPaymentProfileIds
      = (db, [RemoteCall.addProfile user],
         Except.error StoreErr.billingError) := by
  rfl

/-- C5: when the `update_payment_profile` gateway response reports
failure, `CustomerPaymentProfile.update` raises `BillingError` and the
local state is returned unchanged, so every billing and payment field
of the row keeps its prior value. -/
theorem C5_update_gateway_failure_leaves_fields_unchanged
    (db : DB) (i : Nat) (selfProfileId selfPaymentProfileId : String)
    (payment_data billing_data : Dict) :
    CustomerPaymentProfile.update db i selfProfileId selfPaymentProfileId
        payment_data billing_data false
      = (db,
         [RemoteCall.updatePaymentProfile selfProfileId selfPaymentProfileId],
         Except.error StoreErr.billingError) := by
  rfl

/-- C7: when `make_cim_request` is true and the
`create_payment_profile` gateway response reports failure,
`CustomerPaymentProfileManager.create` raises `BillingError` and
persists no local `CustomerPaymentProfile` row. -/
theorem C7_payment_create_gateway_failure_no_row
    (db : DB) (cp : CustomerProfileRow)
    (kwargs payment_data billing_data : Dict)
    (gwPaymentProfileId : String) :
    CustomerPaymentProfileManager.create db cp kwargs payment_data
        billing_data true false gwPaymentProfileId
      = (db, [RemoteCall.createPaymentProfile cp.profile_id],
         Except.error StoreErr.billingError) := by
  rfl

/-- C4: the claim is refuted by the code.  `CustomerPaymentProfile.delete`
does issue the `delete_payment_profile` gateway call, but it never
removes the local `CustomerPaymentProfile` row (the method body has no
local delete), contradicting both the claim and the method's own
docstring "Delete the customer payment profile remotely and locally".
The first conjunct shows the local state is unchanged for every input;
the remaining conjuncts evaluate the concrete failing input. -/
theorem C4_delete_never_removes_local_row :
    (∀ (db : DB) (p q : String),
        (CustomerPaymentProfile.delete db p q).1 = db) ∧
    (CustomerPaymentProfile.delete dbOneRow "prof1" "42").2
        = [RemoteCall.deletePaymentProfile "prof1" "42"] ∧
    (CustomerPaymentProfile.delete dbOneRow "prof1" "42").1.payments
        = [rowW] := by
  exact ⟨fun db p q => rfl, rfl, rfl⟩

theorem customerAny_iff_countP_pos (l : List Nat) (u : Nat) :
    l.any (fun x => x == u) = true ↔ 0 < l.countP (fun x => x == u) := by
  simp [List.any_eq_true, List.countP_pos_iff]

theorem hook_noop (db : DB) (u : Nat)
    (h : db.customers.any (fun x => x == u) = true) :
    create_customer_profile db (some u) = db := by
  simp only [create_customer_profile]
  rw [h]
  simp

theorem hook_append (db : DB) (u : Nat)
    (h : db.customers.any (fun x => x == u) = false) :
    create_customer_profile db (some u)
      = { db with customers := db.customers ++ [u] } := by
  simp only [create_customer_profile]
  rw [h]
  simp

theorem hook_count_step (db : DB) (u : Nat) :
    customerCount (create_customer_profile db (some u)) u
      = max 1 (customerCount db u) := by
  cases h : db.customers.any (fun x => x == u) with
  | true =>
    have hpos : 0 < customerCount db u :=
      (customerAny_iff_countP_pos db.customers u).mp h
    rw [hook_noop db u h]
    omega
  | false =>
    have hz : customerCount db u = 0 := by
      by_contra hnz
      have hp : 0 < customerCount db u := Nat.pos_of_ne_zero hnz
      have ha := (customerAny_iff_countP_pos db.customers u).mpr hp
      rw [h] at ha
      exact Bool.false_ne_true ha
    rw [hook_append db u h, hz]
    show (db.customers ++ [u]).countP (fun x => x == u) = max 1 0
    rw [List.countP_append]
    have hz2 : db.customers.countP (fun x => x == u) = 0 := hz
    rw [hz2]
    simp [List.countP, List.countP.go]

theorem hook_idem (db : DB) (u : Nat) :
    create_customer_profile (create_customer_profile db (some u)) (some u)
      = create_customer_profile db (some u) := by
  cases h : db.customers.any (fun x => x == u) with
  | true => rw [hook_noop db u h, hook_noop db u h]
  | false =>
    rw [hook_append db u h]
    apply hook_noop
    simp

theorem iterate_hook_count (db : DB) (u : Nat)
    (h0 : customerCount db u = 0) :
    ∀ n, 1 ≤ n → customerCount (iterateHook db u n) u = 1 := by
  intro n
  induction n with
  | zero => intro h; omega
  | succ m ih =>
    intro _
    show customerCount
        (create_customer_profile (iterateHook db u m) (some u)) u = 1
    rw [hook_count_step]
    rcases Nat.eq_zero_or_pos m with hm | hm
    · subst hm
      show max 1 (customerCount db u) = 1
      rw [h0]
      omega
    · rw [ih hm]
      omega

/-- C9: the post-save user hook is an idempotent get-or-create.
Starting from a state with no `Customer` row for user `u`, triggering
the hook any positive number of times leaves exactly one `Customer`
row for `u`; moreover a second trigger never changes the state produced
by a first trigger, so no duplicate is ever created. -/
theorem C9_customer_hook_idempotent_single_row
    (db : DB) (u : Nat) (n : Nat)
    (h0 : customerCount db u = 0) (hn : 1 ≤ n) :
    customerCount (iterateHook db u n) u = 1 ∧
    (∀ db2 : DB,
        create_customer_profile (create_customer_profile db2 (some u)) (some u)
          = create_customer_profile db2 (some u)) :=
  ⟨iterate_hook_count db u h0 n hn, fun db2 => hook_idem db2 u⟩

/-- C9 witness: the hypotheses hold at the concrete input `dbEmpty`,
user 7, three triggers. -/
theorem C9_customer_hook_witness :
    customerCount (iterateHook dbEmpty 7 3) 7 = 1 ∧
    (∀ db2 : DB,
        create_customer_profile (create_customer_profile db2 (some 7)) (some 7)
          = create_customer_profile db2 (some 7)) :=
  C9_customer_hook_idempotent_single_row dbEmpty 7 3 (by rfl) (by omega)

theorem dmem_derase_ne (d : Dict) (k k2 : String) (h : k ≠ k2) :
    dmem (derase d k2) k = dmem d k := by
  simp only [dmem, dlookup_derase_ne d k k2 h]

theorem dmem_combined (kw bd pd : Dict) (k : String)
    (hkw : dmem kw k = false) :
    dmem (dupdate (dupdate kw bd) pd) k = (dmem bd k || dmem pd k) := by
  rw [dmem_dupdate, dmem_dupdate, hkw]
  simp

/-- C10: `CustomerPaymentProfileManager.create` is total only when the
combined `billing_data`/`payment_data` dictionaries contain both the
`expiration_date` and the `card_code` keys.  When the gateway call is
skipped or succeeds but a key is absent, the unconditional
`kwargs.pop` raises `KeyError` (not `BillingError`) and no local row
is persisted; with both keys present the operation succeeds. -/
theorem C10_payment_create_total_iff_keys_present
    (db : DB) (cp : CustomerProfileRow)
    (kwargs payment_data billing_data : Dict)
    (make_cim_request gwSuccess : Bool) (gwPaymentProfileId : String)
    (hkE : dmem kwargs "expiration_date" = false)
    (hkC : dmem kwargs "card_code" = false)
    (hrun : make_cim_request = false ∨ gwSuccess = true) :
    ((dmem billing_data "expiration_date"
        || dmem payment_data "expiration_date") = false →
      CustomerPaymentProfileManager.create db cp kwargs payment_data
          billing_data make_cim_request gwSuccess gwPaymentProfileId
        = (db,
           (if make_cim_request then
              [RemoteCall.createPaymentProfile cp.profile_id] else []),
           Except.error (StoreErr.keyError "expiration_date"))) ∧
    ((dmem billing_data "expiration_date"
        || dmem payment_data "expiration_date") = true →
     (dmem billing_data "card_code" || dmem payment_data "card_code") = false →
      CustomerPaymentProfileManager.create db cp kwargs payment_data
          billing_data make_cim_request gwSuccess gwPaymentProfileId
        = (db,
           (if make_cim_request then
              [RemoteCall.createPaymentProfile cp.profile_id] else []),
           Except.error (StoreErr.keyError "card_code"))) ∧
    ((dmem billing_data "expiration_date"
        || dmem payment_data "expiration_date") = true →
     (dmem billing_data "card_code" || dmem payment_data "card_code") = true →
      ∃ row,
        (CustomerPaymentProfileManager.create db cp kwargs payment_data
            billing_data make_cim_request gwSuccess gwPaymentProfileId).2.2
          = Except.ok row ∧
        (CustomerPaymentProfileManager.create db cp kwargs payment_data
            billing_data make_cim_request gwSuccess gwPaymentProfileId).1.payments
          = db.payments ++ [row]) := by
  have hneE : ("expiration_date" : String) ≠ "payment_profile_id" := by decide
  have hneC : ("card_code" : String) ≠ "payment_profile_id" := by decide
  have hneCE : ("card_code" : String) ≠ "expiration_date" := by decide
  cases make_cim_request with
  | false =>
    have hE2 := dmem_combined kwargs billing_data payment_data
      "expiration_date" hkE
    have hC2 := dmem_combined kwargs billing_data payment_data
      "card_code" hkC
    refine ⟨?_, ?_, ?_⟩
    · intro hBE
      rw [hBE] at hE2
      simp [CustomerPaymentProfileManager.create, hE2]
    · intro hBE hBC
      rw [hBE] at hE2
      rw [hBC] at hC2
      have hC3 : dmem (derase (dupdate (dupdate kwargs billing_data)
          payment_data) "expiration_date") "card_code" = false := by
        rw [dmem_derase_ne _ _ _ hneCE, hC2]
      simp [CustomerPaymentProfileManager.create, hE2, hC3]
    · intro hBE hBC
      rw [hBE] at hE2
      rw [hBC] at hC2
      have hC3 : dmem (derase (dupdate (dupdate kwargs billing_data)
          payment_data) "expiration_date") "card_code" = true := by
        rw [dmem_derase_ne _ _ _ hneCE, hC2]
      simp [CustomerPaymentProfileManager.create, hE2, hC3]
  | true =>
    have hgw : gwSuccess = true := by
      rcases hrun with h | h
      · exact absurd h (by simp)
      · exact h
    subst hgw
    have hk1E : dmem (dinsert kwargs "payment_profile_id" gwPaymentProfileId)
        "expiration_date" = false := by
      rw [dmem_dinsert, hkE]
      simp [hneE]
    have hk1C : dmem (dinsert kwargs "payment_profile_id" gwPaymentProfileId)
        "card_code" = false := by
      rw [dmem_dinsert, hkC]
      simp [hneC]
    have hE2 := dmem_combined
      (dinsert kwargs "payment_profile_id" gwPaymentProfileId)
      billing_data payment_data "expiration_date" hk1E
    have hC2 := dmem_combined
      (dinsert kwargs "payment_profile_id" gwPaymentProfileId)
      billing_data payment_data "card_code" hk1C
    refine ⟨?_, ?_, ?_⟩
    · intro hBE
      rw [hBE] at hE2
      simp [CustomerPaymentProfileManager.create, hE2]
    · intro hBE hBC
      rw [hBE] at hE2
      rw [hBC] at hC2
      have hC3 : dmem (derase (dupdate (dupdate
          (dinsert kwargs "payment_profile_id" gwPaymentProfileId)
          billing_data) payment_data) "expiration_date") "card_code"
          = false := by
        rw [dmem_derase_ne _ _ _ hneCE, hC2]
      simp [CustomerPaymentProfileManager.create, hE2, hC3]
    · intro hBE hBC
      rw [hBE] at hE2
      rw [hBC] at hC2
      have hC3 : dmem (derase (dupdate (dupdate
          (dinsert kwargs "payment_profile_id" gwPaymentProfileId)
          billing_data) payment_data) "expiration_date") "card_code"
          = true := by
        rw [dmem_derase_ne _ _ _ hneCE, hC2]
      simp [CustomerPaymentProfileManager.create, hE2, hC3]

/-- The kwargs dictionary that reaches `super().create(**kwargs)` in
CustomerPaymentProfileManager.create (models.py:91-96), for the case
where the updates and pops succeed: update with billing then payment
data, pop the two sensitive keys, mask `card_number` when present. -/
def processedPaymentKwargs (kwargs payment_data billing_data : Dict) : Dict :=
  let kwargs2 := dupdate (dupdate kwargs billing_data) payment_data
  let kwargs3 := derase kwargs2 "expiration_date"
  let kwargs4 := derase kwargs3 "card_code"
  if dmem kwargs4 "card_number" then
    dinsert kwargs4 "card_number"
      (maskCardNumber (dlookupD kwargs4 "card_number" ""))
  else kwargs4

theorem paymentCreate_skip_ok (db : DB) (inst : CustomerProfileRow)
    (kwargs payment_data billing_data : Dict)
    (hE2 : dmem (dupdate (dupdate kwargs billing_data) payment_data)
        "expiration_date" = true)
    (hC2 : dmem (dupdate (dupdate kwargs billing_data) payment_data)
        "card_code" = true) :
    CustomerPaymentProfileManager.create db inst kwargs payment_data
        billing_data false true ""
      = ({ db with payments := db.payments ++
            [{ customer_profile := inst.pk,
               attrs := drestrict (processedPaymentKwargs kwargs
                 payment_data billing_data) paymentFields }] },
         [],
         Except.ok
           { customer_profile := inst.pk,
             attrs := drestrict (processedPaymentKwargs kwargs
               payment_data billing_data) paymentFields }) := by
  have hC3 : dmem (derase (dupdate (dupdate kwargs billing_data)
      payment_data) "expiration_date") "card_code" = true := by
    rw [dmem_derase_ne _ _ _ (by decide), hC2]
  simp [CustomerPaymentProfileManager.create, processedPaymentKwargs, hE2, hC3]

theorem dmem_singleton_ppid (pid k : String)
    (h : (k == "payment_profile_id") = false) :
    dmem [("payment_profile_id", pid)] k = false := by
  rw [dmem_cons, h]
  simp [dmem, dlookup]

theorem loop_all_ok (inst : CustomerProfileRow)
    (payment_data billing_data : Dict)
    (hE : (dmem billing_data "expiration_date"
        || dmem payment_data "expiration_date") = true)
    (hC : (dmem billing_data "card_code"
        || dmem payment_data "card_code") = true)
    (pids : List String) :
    ∀ db : DB,
      (createPaymentProfilesLoop db inst payment_data billing_data pids).2
        = Except.ok () ∧
      (createPaymentProfilesLoop db inst payment_data billing_data
          pids).1.payments.length = db.payments.length + pids.length ∧
      (createPaymentProfilesLoop db inst payment_data billing_data
          pids).1.profiles = db.profiles ∧
      (createPaymentProfilesLoop db inst payment_data billing_data
          pids).1.customers = db.customers := by
  induction pids with
  | nil =>
    intro db
    exact ⟨rfl, by simp [createPaymentProfilesLoop], rfl, rfl⟩
  | cons pid rest ih =>
    intro db
    have hkE := dmem_singleton_ppid pid "expiration_date" (by decide)
    have hkC := dmem_singleton_ppid pid "card_code" (by decide)
    have hE2 : dmem (dupdate (dupdate [("payment_profile_id", pid)]
        billing_data) payment_data) "expiration_date" = true := by
      rw [dmem_combined _ _ _ _ hkE, hE]
    have hC2 : dmem (dupdate (dupdate [("payment_profile_id", pid)]
        billing_data) payment_data) "card_code" = true := by
      rw [dmem_combined _ _ _ _ hkC, hC]
    have hcr := paymentCreate_skip_ok db inst [("payment_profile_id", pid)]
      payment_data billing_data hE2 hC2
    have hstep : createPaymentProfilesLoop db inst payment_data billing_data
        (pid :: rest)
        = createPaymentProfilesLoop
            ({ db with payments := db.payments ++
              [{ customer_profile := inst.pk,
                 attrs := drestrict (processedPaymentKwargs
                   [("payment_profile_id", pid)] payment_data billing_data)
                   paymentFields }] })
            inst payment_data billing_data rest := by
      simp only [createPaymentProfilesLoop]
      rw [hcr]
    rw [hstep]
    obtain ⟨h1, h2, h3, h4⟩ := ih ({ db with payments := db.payments ++
      [{ customer_profile := inst.pk,
         attrs := drestrict (processedPaymentKwargs
           [("payment_profile_id", pid)] payment_data billing_data)
           paymentFields }] })
    refine ⟨h1, ?_, h3, h4⟩
    rw [h2]
    simp
    omega

/-- C3: when the `add_profile` gateway response reports success with
profile id `gwProfileId` and `N` payment profile ids,
`CustomerProfileManager.create` (given payment/billing data carrying
the `expiration_date` and `card_code` keys that the spec lists as the
operation's input) returns the stored profile row holding
`gwProfileId`, appends exactly that one `CustomerProfile` row and
exactly `N` `CustomerPaymentProfile` rows, and the only remote call
made is the single `add_profile` call: the nested creates run with
`make_cim_request=False`, so no `create_payment_profile` call occurs. -/
theorem C3_profile_create_success_counts
    (db : DB) (user : Nat) (payment_data billing_data : Dict)
    (gwProfileId : String) (gwPaymentProfileIds : List String)
    (hE : (dmem billing_data "expiration_date"
        || dmem payment_data "expiration_date") = true)
    (hC : (dmem billing_data "card_code"
        || dmem payment_data "card_code") = true) :
    (CustomerProfileManager.create db user payment_data billing_data true
        gwProfileId gwPaymentProfileIds).2.2
      = Except.ok { pk := db.profiles.length, user := user,
                    profile_id := gwProfileId } ∧
    (CustomerProfileManager.create db user payment_data billing_data true
        gwProfileId gwPaymentProfileIds).1.profiles
      = db.profiles ++ [{ pk := db.profiles.length, user := user,
                          profile_id := gwProfileId }] ∧
    (CustomerProfileManager.create db user payment_data billing_data true
        gwProfileId gwPaymentProfileIds).1.payments.length
      = db.payments.length + gwPaymentProfileIds.length ∧
    (CustomerProfileManager.create db user payment_data billing_data true
        gwProfileId gwPaymentProfileIds).2.1
      = [RemoteCall.addProfile user] := by
  obtain ⟨h1, h2, h3, h4⟩ := loop_all_ok
    { pk := db.profiles.length, user := user, profile_id := gwProfileId }
    payment_data billing_data hE hC gwPaymentProfileIds
    ({ db with profiles := db.profiles ++
      [{ pk := db.profiles.length, user := user,
         profile_id := gwProfileId }] })
  have hmain : CustomerProfileManager.create db user payment_data
      billing_data true gwProfileId gwPaymentProfileIds
      = ((createPaymentProfilesLoop
            ({ db with profiles := db.profiles ++
              [{ pk := db.profiles.length, user := user,
                 profile_id := gwProfileId }] })
            { pk := db.profiles.length, user := user,
              profile_id := gwProfileId }
            payment_data billing_data gwPaymentProfileIds).1,
         [RemoteCall.addProfile user],
         Except.ok { pk := db.profiles.length, user := user,
                     profile_id := gwProfileId }) := by
    simp only [CustomerProfileManager.create]
    simp [h1]
  rw [hmain]
  exact ⟨rfl, h3, h2, rfl⟩

/-- C3 witness: the hypotheses hold at concrete inputs (payment data
with card number, expiration date and CVV; two returned payment
profile ids). -/
theorem C3_profile_create_success_witness :
    (CustomerProfileManager.create dbEmpty 7 pdW bdW true
        "prof1" ["pp1", "pp2"]).2.2
      = Except.ok { pk := 0, user := 7, profile_id := "prof1" } ∧
    (CustomerProfileManager.create dbEmpty 7 pdW bdW true
        "prof1" ["pp1", "pp2"]).1.profiles
      = [{ pk := 0, user := 7, profile_id := "prof1" }] ∧
    (CustomerProfileManager.create dbEmpty 7 pdW bdW true
        "prof1" ["pp1", "pp2"]).1.payments.length = 2 ∧
    (CustomerProfileManager.create dbEmpty 7 pdW bdW true
        "prof1" ["pp1", "pp2"]).2.1 = [RemoteCall.addProfile 7] :=
  C3_profile_create_success_counts dbEmpty 7 pdW bdW "prof1" ["pp1", "pp2"]
    (by decide) (by decide)

/-- C10 witness: concrete inputs (empty extra kwargs, gateway call made
and successful, payment data carrying both keys). -/
theorem C10_payment_create_witness :
    ((dmem bdW "expiration_date" || dmem pdW "expiration_date") = false →
      CustomerPaymentProfileManager.create dbEmpty cpW [] pdW bdW true true
          "pp9"
        = (dbEmpty,
           (if true then [RemoteCall.createPaymentProfile cpW.profile_id]
            else []),
           Except.error (StoreErr.keyError "expiration_date"))) ∧
    ((dmem bdW "expiration_date" || dmem pdW "expiration_date") = true →
     (dmem bdW "card_code" || dmem pdW "card_code") = false →
      CustomerPaymentProfileManager.create dbEmpty cpW [] pdW bdW true true
          "pp9"
        = (dbEmpty,
           (if true then [RemoteCall.createPaymentProfile cpW.profile_id]
            else []),
           Except.error (StoreErr.keyError "card_code"))) ∧
    ((dmem bdW "expiration_date" || dmem pdW "expiration_date") = true →
     (dmem bdW "card_code" || dmem pdW "card_code") = true →
      ∃ row,
        (CustomerPaymentProfileManager.create dbEmpty cpW [] pdW bdW true
            true "pp9").2.2 = Except.ok row ∧
        (CustomerPaymentProfileManager.create dbEmpty cpW [] pdW bdW true
            true "pp9").1.payments = dbEmpty.payments ++ [row]) :=
  C10_payment_create_total_iff_keys_present dbEmpty cpW [] pdW bdW true true
    "pp9" rfl rfl (Or.inr rfl)

theorem dmem_false_of_not_mem_keys (d : Dict) (x : String)
    (h : x ∉ d.map Prod.fst) : dmem d x = false := by
  induction d with
  | nil => rfl
  | cons kv rest ih =>
    rw [List.map_cons, List.mem_cons] at h
    push_neg at h
    rw [dmem_cons, ih h.2]
    simp [h.1]

theorem dlookup_updatePaymentStep_ne (a : Dict) (kv : String × String)
    (k : String) (hk : k ≠ kv.1) :
    dlookup (updatePaymentStep a kv) k = dlookup a k := by
  unfold updatePaymentStep
  by_cases h1 : (kv.1 != "expiration_date" && kv.1 != "card_code") = true
  · by_cases h2 : (kv.1 == "card_number") = true
    · rw [if_pos h1, if_pos h2,
        dlookup_dinsert_ne a k kv.1 (maskCardNumber kv.2) hk]
    · rw [if_pos h1, if_neg h2, dlookup_dinsert_ne a k kv.1 kv.2 hk]
  · rw [if_neg h1]

theorem dlookup_updateFold_not_mem (pd : Dict) (a : Dict) (k : String)
    (h : dmem pd k = false) :
    dlookup (pd.foldl updatePaymentStep a) k = dlookup a k := by
  induction pd generalizing a with
  | nil => rfl
  | cons kv rest ih =>
    rw [dmem_cons] at h
    have hk : k ≠ kv.1 := by
      intro he
      simp [he] at h
    have hrest : dmem rest k = false := by
      cases hdm : dmem rest k
      · rfl
      · simp [hdm] at h
    show dlookup (rest.foldl updatePaymentStep (updatePaymentStep a kv)) k
        = dlookup a k
    rw [ih _ hrest, dlookup_updatePaymentStep_ne a kv k hk]

theorem dlookup_updateFold_mem (pd : Dict) (k v : String) :
    ∀ a : Dict, (pd.map Prod.fst).Nodup →
    (k == "expiration_date") = false → (k == "card_code") = false →
    dlookup pd k = some v →
    dlookup (pd.foldl updatePaymentStep a) k
      = some (if k == "card_number" then maskCardNumber v else v) := by
  induction pd with
  | nil =>
    intro a _ _ _ hv
    simp [dlookup] at hv
  | cons kv rest ih =>
    intro a hnd hE hC hv
    rw [List.map_cons, List.nodup_cons] at hnd
    by_cases hk : kv.1 = k
    · subst hk
      have hv1 : v = kv.2 := by
        simp [dlookup] at hv
        exact hv.symm
      have hrest : dmem rest kv.1 = false :=
        dmem_false_of_not_mem_keys rest kv.1 hnd.1
      show dlookup (rest.foldl updatePaymentStep (updatePaymentStep a kv)) kv.1
          = _
      rw [dlookup_updateFold_not_mem rest _ kv.1 hrest]
      have h1 : (kv.1 != "expiration_date" && kv.1 != "card_code") = true := by
        simp only [bne, hE, hC]
        rfl
      unfold updatePaymentStep
      rw [if_pos h1]
      by_cases h2 : (kv.1 == "card_number") = true
      · rw [if_pos h2]
        simp [h2, dlookup_dinsert_self, hv1]
      · have h2f : (kv.1 == "card_number") = false := by simpa using h2
        rw [if_neg h2]
        simp [h2f, dlookup_dinsert_self, hv1]
    · have hv2 : dlookup rest k = some v := by
        simpa [dlookup, hk] using hv
      show dlookup (rest.foldl updatePaymentStep (updatePaymentStep a kv)) k
          = _
      exact ih (updatePaymentStep a kv) hnd.2 hE hC hv2

/-- C8: on a successful gateway response,
`CustomerPaymentProfile.update` sets every `billing_data` key (not
overridden by `payment_data`) verbatim, sets every `payment_data` key
except `expiration_date` and `card_code` with `card_number` replaced
by its masked form, and saves the resulting record (persisting its
model columns) back into the store. -/
theorem C8_update_success_sets_fields
    (db : DB) (i : Nat) (selfProfileId selfPaymentProfileId : String)
    (attrs payment_data billing_data : Dict)
    (hbd : (billing_data.map Prod.fst).Nodup)
    (hpd : (payment_data.map Prod.fst).Nodup) :
    (∀ k v, dlookup billing_data k = some v → dmem payment_data k = false →
      dlookup (CustomerPaymentProfile.updateAttrs attrs payment_data
        billing_data) k = some v) ∧
    (∀ k v, dlookup payment_data k = some v →
      (k == "expiration_date") = false → (k == "card_code") = false →
      dlookup (CustomerPaymentProfile.updateAttrs attrs payment_data
          billing_data) k
        = some (if k == "card_number" then maskCardNumber v else v)) ∧
    CustomerPaymentProfile.update db i selfProfileId selfPaymentProfileId
        payment_data billing_data true
      = (modifyPaymentAttrs db i (fun a =>
           drestrict (CustomerPaymentProfile.updateAttrs a payment_data
             billing_data) paymentFields),
         [RemoteCall.updatePaymentProfile selfProfileId
           selfPaymentProfileId],
         Except.ok ()) := by
  refine ⟨?_, ?_, rfl⟩
  · intro k v hbv hpdk
    show dlookup (payment_data.foldl updatePaymentStep
      (dupdate attrs billing_data)) k = some v
    rw [dlookup_updateFold_not_mem payment_data _ k hpdk]
    exact dlookup_dupdate_mem attrs billing_data k v hbd hbv
  · intro k v hpv hE hC
    exact dlookup_updateFold_mem payment_data k v
      (dupdate attrs billing_data) hpd hE hC hpv

def attrsW : Dict := [("first_name", "Old"), ("card_number", "XXXX9999")]

/-- C8 witness: the hypotheses hold at concrete inputs. -/
theorem C8_update_success_witness :
    (∀ k v, dlookup bdW k = some v → dmem pdW k = false →
      dlookup (CustomerPaymentProfile.updateAttrs attrsW pdW bdW) k
        = some v) ∧
    (∀ k v, dlookup pdW k = some v →
      (k == "expiration_date") = false → (k == "card_code") = false →
      dlookup (CustomerPaymentProfile.updateAttrs attrsW pdW bdW) k
        = some (if k == "card_number" then maskCardNumber v else v)) ∧
    CustomerPaymentProfile.update dbOneRow 0 "prof1" "42" pdW bdW true
      = (modifyPaymentAttrs dbOneRow 0 (fun a =>
           drestrict (CustomerPaymentProfile.updateAttrs a pdW bdW)
             paymentFields),
         [RemoteCall.updatePaymentProfile "prof1" "42"],
         Except.ok ()) :=
  C8_update_success_sets_fields dbOneRow 0 "prof1" "42" attrsW pdW bdW
    (by decide) (by decide)

theorem findIdxP_isSome_eq_any (p : α → Bool) (l : List α) :
    (findIdxP p l).isSome = l.any p := by
  induction l with
  | nil => rfl
  | cons a rest ih =>
    by_cases h : p a = true
    · simp [findIdxP, h]
    · have hf : p a = false := by simpa using h
      simp [findIdxP, hf, ih]

theorem findIdxP_getD (p : α → Bool) (l : List α) (d : α) :
    ∀ i, findIdxP p l = some i → p (l.getD i d) = true := by
  induction l with
  | nil =>
    intro i h
    simp [findIdxP] at h
  | cons a rest ih =>
    intro i h
    by_cases hp : p a = true
    · simp [findIdxP, hp] at h
      rw [← h]
      simpa using hp
    · have hf : p a = false := by simpa using hp
      simp [findIdxP, hf] at h
      obtain ⟨j, hj, hji⟩ := h
      rw [← hji]
      simpa [List.getD] using ih j hj

theorem listModify_length (l : List α) (i : Nat) (f : α → α) :
    (listModify l i f).length = l.length := by
  induction l generalizing i with
  | nil => rfl
  | cons a rest ih =>
    cases i with
    | zero => rfl
    | succ j => simp [listModify, ih]

theorem syncStep_length (db : DB) (cp : Nat) (p : RemotePaymentProfile) :
    (CustomerProfile.syncStep db cp p).payments.length
      = if db.payments.any (matchesPayment cp p.payment_profile_id) = true
        then db.payments.length else db.payments.length + 1 := by
  unfold CustomerProfile.syncStep getOrCreatePayment
  cases hf : findIdxP (matchesPayment cp p.payment_profile_id) db.payments with
  | some i =>
    have hany : db.payments.any (matchesPayment cp p.payment_profile_id)
        = true := by
      rw [← findIdxP_isSome_eq_any, hf]
      rfl
    simp only [hf]
    rw [if_pos hany]
    simp [modifyPaymentAttrs, listModify_length]
  | none =>
    have hany : db.payments.any (matchesPayment cp p.payment_profile_id)
        = false := by
      rw [← findIdxP_isSome_eq_any, hf]
      rfl
    simp only [hf]
    rw [if_neg (by simp [hany])]
    simp [modifyPaymentAttrs, listModify_length]

theorem getOrCreate_matches (db : DB) (cp : Nat) (pid : String) :
    matchesPayment cp pid
      (((getOrCreatePayment db cp pid).1.payments).getD
        (getOrCreatePayment db cp pid).2
        { customer_profile := 0, attrs := [] }) = true := by
  unfold getOrCreatePayment
  cases hf : findIdxP (matchesPayment cp pid) db.payments with
  | some i =>
    simp only [hf]
    exact findIdxP_getD (matchesPayment cp pid) db.payments _ i hf
  | none =>
    simp only [hf]
    have hg : (db.payments ++
        [({ customer_profile := cp,
            attrs := [("payment_profile_id", pid)] }
          : CustomerPaymentProfileRow)]).getD
          db.payments.length { customer_profile := 0, attrs := [] }
        = { customer_profile := cp,
            attrs := [("payment_profile_id", pid)] } := by
      rw [List.getD, List.get?_append_right (le_refl _)]
      simp
    rw [hg]
    simp [matchesPayment, CustomerPaymentProfileRow.field, dlookupD, dlookup]

/-- C6: `CustomerProfile.sync` matches each remote payload to a local
row by the pair (customer profile, payment profile id): an existing
match keeps the number of rows unchanged (never duplicating), a miss
creates exactly one row, and the found-or-created row matches the
pair.  `CustomerPaymentProfile.sync` overwrites exactly the fields
appearing as keys of the remote `billing` dictionary plus
`card_number` when present in the remote `credit_card` dictionary,
leaving every other field at its prior value. -/
theorem C6_sync_find_or_create_and_frame
    (db : DB) (self : CustomerProfileRow) (pid : String)
    (billing credit_card attrs : Dict)
    (hb : (billing.map Prod.fst).Nodup) :
    ((db.payments.any (matchesPayment self.pk pid)) = true →
      (CustomerProfile.sync db self true
        [{ payment_profile_id := pid, billing := billing,
           credit_card := credit_card }]).1.payments.length
        = db.payments.length) ∧
    ((db.payments.any (matchesPayment self.pk pid)) = false →
      (CustomerProfile.sync db self true
        [{ payment_profile_id := pid, billing := billing,
           credit_card := credit_card }]).1.payments.length
        = db.payments.length + 1) ∧
    matchesPayment self.pk pid
      (((getOrCreatePayment db self.pk pid).1.payments).getD
        (getOrCreatePayment db self.pk pid).2
        { customer_profile := 0, attrs := [] }) = true ∧
    (∀ k v, dlookup billing k = some v → k ≠ "card_number" →
      dlookup (CustomerPaymentProfile.syncAttrs attrs billing credit_card) k
        = some v) ∧
    (∀ v, dlookup credit_card "card_number" = some v →
      dlookup (CustomerPaymentProfile.syncAttrs attrs billing credit_card)
        "card_number" = some v) ∧
    (dmem credit_card "card_number" = false →
     dmem billing "card_number" = false →
      dlookupD (CustomerPaymentProfile.syncAttrs attrs billing credit_card)
          "card_number" ""
        = dlookupD attrs "card_number" "") ∧
    (∀ k, k ≠ "card_number" → dmem billing k = false →
      dlookup (CustomerPaymentProfile.syncAttrs attrs billing credit_card) k
        = dlookup attrs k) := by
  refine ⟨?_, ?_, getOrCreate_matches db self.pk pid, ?_, ?_, ?_, ?_⟩
  · intro hany
    have hs : (CustomerProfile.sync db self true
        [{ payment_profile_id := pid, billing := billing,
           credit_card := credit_card }]).1
        = CustomerProfile.syncStep db self.pk
            { payment_profile_id := pid, billing := billing,
              credit_card := credit_card } := rfl
    rw [hs, syncStep_length]
    simp [hany]
  · intro hany
    have hs : (CustomerProfile.sync db self true
        [{ payment_profile_id := pid, billing := billing,
           credit_card := credit_card }]).1
        = CustomerProfile.syncStep db self.pk
            { payment_profile_id := pid, billing := billing,
              credit_card := credit_card } := rfl
    rw [hs, syncStep_length]
    simp [hany]
  · intro k v hv hk
    show dlookup (dinsert (dupdate attrs billing) "card_number"
      (dlookupD credit_card "card_number"
        (dlookupD (dupdate attrs billing) "card_number" ""))) k = some v
    rw [dlookup_dinsert_ne (dupdate attrs billing) k "card_number" _ hk]
    exact dlookup_dupdate_mem attrs billing k v hb hv
  · intro v hv
    show dlookup (dinsert (dupdate attrs billing) "card_number"
      (dlookupD credit_card "card_number"
        (dlookupD (dupdate attrs billing) "card_number" ""))) "card_number"
      = some v
    rw [dlookup_dinsert_self]
    simp [dlookupD, hv]
  · intro hc hb2
    have hcn : dlookup credit_card "card_number" = none := by
      cases h2 : dlookup credit_card "card_number" with
      | none => rfl
      | some w =>
        rw [dmem, h2] at hc
        simp at hc
    show dlookupD (dinsert (dupdate attrs billing) "card_number"
      (dlookupD credit_card "card_number"
        (dlookupD (dupdate attrs billing) "card_number" ""))) "card_number" ""
      = dlookupD attrs "card_number" ""
    rw [dlookupD, dlookup_dinsert_self]
    simp [dlookupD, hcn, dlookup_dupdate_not_mem attrs billing "card_number" hb2]
  · intro k hk hbk
    show dlookup (dinsert (dupdate attrs billing) "card_number"
      (dlookupD credit_card "card_number"
        (dlookupD (dupdate attrs billing) "card_number" ""))) k
      = dlookup attrs k
    rw [dlookup_dinsert_ne (dupdate attrs billing) k "card_number" _ hk]
    exact dlookup_dupdate_not_mem attrs billing k hbk

def billingW : Dict := [("first_name", "Bob")]

def creditCardW : Dict := [("card_number", "XXXX2222")]

/-- C6 witness: the hypotheses hold at concrete inputs (a store holding
one matching payment row, a remote payload with a billing dict and a
masked credit-card dict). -/
theorem C6_sync_witness :
    ((dbOneRow.payments.any (matchesPayment cpW.pk "42")) = true →
      (CustomerProfile.sync dbOneRow cpW true
        [{ payment_profile_id := "42", billing := billingW,
           credit_card := creditCardW }]).1.payments.length
        = dbOneRow.payments.length) ∧
    ((dbOneRow.payments.any (matchesPayment cpW.pk "42")) = false →
      (CustomerProfile.sync dbOneRow cpW true
        [{ payment_profile_id := "42", billing := billingW,
           credit_card := creditCardW }]).1.payments.length
        = dbOneRow.payments.length + 1) ∧
    matchesPayment cpW.pk "42"
      (((getOrCreatePayment dbOneRow cpW.pk "42").1.payments).getD
        (getOrCreatePayment dbOneRow cpW.pk "42").2
        { customer_profile := 0, attrs := [] }) = true ∧
    (∀ k v, dlookup billingW k = some v → k ≠ "card_number" →
      dlookup (CustomerPaymentProfile.syncAttrs attrsW billingW creditCardW) k
        = some v) ∧
    (∀ v, dlookup creditCardW "card_number" = some v →
      dlookup (CustomerPaymentProfile.syncAttrs attrsW billingW creditCardW)
        "card_number" = some v) ∧
    (dmem creditCardW "card_number" = false →
     dmem billingW "card_number" = false →
      dlookupD (CustomerPaymentProfile.syncAttrs attrsW billingW creditCardW)
          "card_number" ""
        = dlookupD attrsW "card_number" "") ∧
    (∀ k, k ≠ "card_number" → dmem billingW k = false →
      dlookup (CustomerPaymentProfile.syncAttrs attrsW billingW creditCardW) k
        = dlookup attrsW k) :=
  C6_sync_find_or_create_and_frame dbOneRow cpW "42" billingW creditCardW
    attrsW (by decide)

theorem dlookup_eq_none_of_dmem_false (d : Dict) (k : String)
    (h : dmem d k = false) : dlookup d k = none := by
  cases h2 : dlookup d k with
  | none => rfl
  | some w =>
    rw [dmem, h2] at h
    simp at h

theorem dlookup_chain_drop_base (kwargs bd pd : Dict) (k : String)
    (hk : dmem kwargs k = false)
    (hbd : (bd.map Prod.fst).Nodup) (hpd : (pd.map Prod.fst).Nodup) :
    dlookup (dupdate (dupdate kwargs bd) pd) k = dlookup (dupdate bd pd) k := by
  by_cases hpdm : dmem pd k = true
  · obtain ⟨v, hv⟩ := Option.isSome_iff_exists.mp hpdm
    rw [dlookup_dupdate_mem _ pd k v hpd hv, dlookup_dupdate_mem bd pd k v hpd hv]
  · have hpdf : dmem pd k = false := by simpa using hpdm
    rw [dlookup_dupdate_not_mem _ pd k hpdf, dlookup_dupdate_not_mem bd pd k hpdf]
    by_cases hbdm : dmem bd k = true
    · obtain ⟨v, hv⟩ := Option.isSome_iff_exists.mp hbdm
      rw [dlookup_dupdate_mem kwargs bd k v hbd hv, hv]
    · have hbdf : dmem bd k = false := by simpa using hbdm
      rw [dlookup_dupdate_not_mem kwargs bd k hbdf,
        dlookup_eq_none_of_dmem_false kwargs k hk,
        dlookup_eq_none_of_dmem_false bd k hbdf]

theorem processed_lookup_card (kwargs1 payment_data billing_data : Dict) :
    dlookup (processedPaymentKwargs kwargs1 payment_data billing_data)
        "card_number"
      = (dlookup (dupdate (dupdate kwargs1 billing_data) payment_data)
          "card_number").map maskCardNumber := by
  have h4 : dlookup (derase (derase (dupdate (dupdate kwargs1 billing_data)
        payment_data) "expiration_date") "card_code") "card_number"
      = dlookup (dupdate (dupdate kwargs1 billing_data) payment_data)
          "card_number" := by
    rw [dlookup_derase_ne _ _ _ (by decide), dlookup_derase_ne _ _ _ (by decide)]
  cases hm : dmem (derase (derase (dupdate (dupdate kwargs1 billing_data)
      payment_data) "expiration_date") "card_code") "card_number" with
  | false =>
    have hnone : dlookup (dupdate (dupdate kwargs1 billing_data)
        payment_data) "card_number" = none := by
      rw [← h4]
      exact dlookup_eq_none_of_dmem_false _ _ hm
    simp only [processedPaymentKwargs]
    rw [if_neg (by simp [hm]), h4, hnone]
    rfl
  | true =>
    obtain ⟨v, hv⟩ := Option.isSome_iff_exists.mp hm
    have hchain : dlookup (dupdate (dupdate kwargs1 billing_data)
        payment_data) "card_number" = some v := by
      rw [← h4]
      exact hv
    simp only [processedPaymentKwargs]
    rw [if_pos hm, dlookup_dinsert_self, hchain]
    simp [dlookupD, hv]

theorem create_stored_row (db : DB) (cp : CustomerProfileRow)
    (kwargs payment_data billing_data : Dict) (mcr gwS : Bool)
    (gwPid : String) (row : CustomerPaymentProfileRow)
    (hok : (CustomerPaymentProfileManager.create db cp kwargs payment_data
        billing_data mcr gwS gwPid).2.2 = Except.ok row) :
    row.attrs = drestrict (processedPaymentKwargs kwargs payment_data
        billing_data) paymentFields ∨
    row.attrs = drestrict (processedPaymentKwargs
        (dinsert kwargs "payment_profile_id" gwPid) payment_data
        billing_data) paymentFields := by
  cases mcr with
  | false =>
    left
    simp only [CustomerPaymentProfileManager.create] at hok
    simp at hok
    split at hok
    · split at hok
      · simp at hok
        simp only [processedPaymentKwargs]
        rw [← hok]
      · simp at hok
    · simp at hok
  | true =>
    cases gwS with
    | false =>
      exfalso
      simp [CustomerPaymentProfileManager.create] at hok
    | true =>
      right
      simp only [CustomerPaymentProfileManager.create] at hok
      simp at hok
      split at hok
      · split at hok
        · simp at hok
          simp only [processedPaymentKwargs]
          rw [← hok]
        · simp at hok
      · simp at hok

theorem create_stored_clauses (db : DB) (cp : CustomerProfileRow)
    (kwargs payment_data billing_data : Dict) (mcr gwS : Bool)
    (gwPid : String) (row : CustomerPaymentProfileRow)
    (hbd : (billing_data.map Prod.fst).Nodup)
    (hpd : (payment_data.map Prod.fst).Nodup)
    (hkw : dmem kwargs "card_number" = false)
    (hok : (CustomerPaymentProfileManager.create db cp kwargs payment_data
        billing_data mcr gwS gwPid).2.2 = Except.ok row) :
    dmem row.attrs "expiration_date" = false ∧
    dmem row.attrs "card_code" = false ∧
    dlookup row.attrs "card_number"
      = (dlookup (dupdate billing_data payment_data) "card_number").map
          maskCardNumber := by
  rcases create_stored_row db cp kwargs payment_data billing_data mcr gwS
    gwPid row hok with h | h
  · rw [h]
    refine ⟨?_, ?_, ?_⟩
    · rw [dmem, dlookup_drestrict, if_neg (by decide)]
      rfl
    · rw [dmem, dlookup_drestrict, if_neg (by decide)]
      rfl
    · rw [dlookup_drestrict, if_pos (by decide), processed_lookup_card,
        dlookup_chain_drop_base kwargs billing_data payment_data
          "card_number" hkw hbd hpd]
  · have hkw2 : dmem (dinsert kwargs "payment_profile_id" gwPid)
        "card_number" = false := by
      rw [dmem_dinsert, hkw]
      decide
    rw [h]
    refine ⟨?_, ?_, ?_⟩
    · rw [dmem, dlookup_drestrict, if_neg (by decide)]
      rfl
    · rw [dmem, dlookup_drestrict, if_neg (by decide)]
      rfl
    · rw [dlookup_drestrict, if_pos (by decide), processed_lookup_card,
        dlookup_chain_drop_base _ billing_data payment_data
          "card_number" hkw2 hbd hpd]

theorem update_stored_clauses (attrs payment_data billing_data : Dict)
    (hpd : (payment_data.map Prod.fst).Nodup)
    (hbdcn : dmem billing_data "card_number" = false) :
    dmem (drestrict (CustomerPaymentProfile.updateAttrs attrs payment_data
      billing_data) paymentFields) "expiration_date" = false ∧
    dmem (drestrict (CustomerPaymentProfile.updateAttrs attrs payment_data
      billing_data) paymentFields) "card_code" = false ∧
    (∀ v, dlookup payment_data "card_number" = some v →
      dlookup (drestrict (CustomerPaymentProfile.updateAttrs attrs
          payment_data billing_data) paymentFields) "card_number"
        = some (maskCardNumber v)) ∧
    (dmem payment_data "card_number" = false →
      dlookup (drestrict (CustomerPaymentProfile.updateAttrs attrs
          payment_data billing_data) paymentFields) "card_number"
        = dlookup attrs "card_number") := by
  refine ⟨?_, ?_, ?_, ?_⟩
  · rw [dmem, dlookup_drestrict, if_neg (by decide)]
    rfl
  · rw [dmem, dlookup_drestrict, if_neg (by decide)]
    rfl
  · intro v hv
    rw [dlookup_drestrict, if_pos (by decide)]
    have := dlookup_updateFold_mem payment_data "card_number" v
      (dupdate attrs billing_data) hpd (by decide) (by decide) hv
    rw [CustomerPaymentProfile.updateAttrs, this]
    rfl
  · intro hpdcn
    rw [dlookup_drestrict, if_pos (by decide), CustomerPaymentProfile.updateAttrs,
      dlookup_updateFold_not_mem payment_data _ "card_number" hpdcn,
      dlookup_dupdate_not_mem attrs billing_data "card_number" hbdcn]

/-- A stored card-number value that is either blank or in the masked
`"XXXX" ++ last-four` form. -/
def maskedOrEmpty (s : String) : Prop :=
  s = "" ∨ ∃ raw, s = maskCardNumber raw


theorem sync_stored_clauses (attrs billing credit_card : Dict)
    (hbcn : dmem billing "card_number" = false)
    (hccm : ∀ v, dlookup credit_card "card_number" = some v →
        ∃ raw, v = maskCardNumber raw)
    (hprior : maskedOrEmpty (dlookupD attrs "card_number" "")) :
    dmem (drestrict (CustomerPaymentProfile.syncAttrs attrs billing
      credit_card) paymentFields) "expiration_date" = false ∧
    dmem (drestrict (CustomerPaymentProfile.syncAttrs attrs billing
      credit_card) paymentFields) "card_code" = false ∧
    maskedOrEmpty (dlookupD (drestrict (CustomerPaymentProfile.syncAttrs
      attrs billing credit_card) paymentFields) "card_number" "") := by
  refine ⟨?_, ?_, ?_⟩
  · rw [dmem, dlookup_drestrict, if_neg (by decide)]
    rfl
  · rw [dmem, dlookup_drestrict, if_neg (by decide)]
    rfl
  · rw [dlookupD, dlookup_drestrict, if_pos (by decide)]
    have hsync : dlookup (CustomerPaymentProfile.syncAttrs attrs billing
        credit_card) "card_number"
        = some (dlookupD credit_card "card_number"
            (dlookupD (dupdate attrs billing) "card_number" "")) := by
      simp only [CustomerPaymentProfile.syncAttrs]
      rw [dlookup_dinsert_self]
    rw [hsync]
    simp only [Option.getD_some]
    cases hcc : dlookup credit_card "card_number" with
    | some v =>
      have hval : dlookupD credit_card "card_number"
          (dlookupD (dupdate attrs billing) "card_number" "") = v := by
        rw [dlookupD, hcc]
        rfl
      rw [hval]
      obtain ⟨raw, hraw⟩ := hccm v hcc
      exact Or.inr ⟨raw, hraw⟩
    | none =>
      have hval : dlookupD credit_card "card_number"
          (dlookupD (dupdate attrs billing) "card_number" "")
          = dlookupD attrs "card_number" "" := by
        rw [dlookupD, hcc, Option.getD_none, dlookupD,
          dlookup_dupdate_not_mem attrs billing "card_number" hbcn]
        rfl
      rw [hval]
      exact hprior

/-- C2: every `CustomerPaymentProfile` row persisted by creation,
update or sync satisfies the card-data invariant.  Creation: the
stored attributes never contain `expiration_date` or `card_code`, and
the stored `card_number` is exactly the masked form of the combined
input card number (present iff the input had one).  Update: the
persisted columns exclude the sensitive keys, a `card_number` in
`payment_data` is stored masked, and without one the prior value is
kept.  Sync: the persisted columns exclude the sensitive keys and,
given that the remote billing dict carries no card number and the
remote credit-card dict carries only masked values (the gateway
returns masked numbers), a blank-or-masked stored card number stays
blank or masked. -/
theorem C2_stored_rows_masked_no_sensitive_data :
    (∀ (db : DB) (cp : CustomerProfileRow)
        (kwargs payment_data billing_data : Dict) (mcr gwS : Bool)
        (gwPid : String) (row : CustomerPaymentProfileRow),
      (billing_data.map Prod.fst).Nodup →
      (payment_data.map Prod.fst).Nodup →
      dmem kwargs "card_number" = false →
      (CustomerPaymentProfileManager.create db cp kwargs payment_data
          billing_data mcr gwS gwPid).2.2 = Except.ok row →
      dmem row.attrs "expiration_date" = false ∧
      dmem row.attrs "card_code" = false ∧
      dlookup row.attrs "card_number"
        = (dlookup (dupdate billing_data payment_data) "card_number").map
            maskCardNumber) ∧
    (∀ attrs payment_data billing_data : Dict,
      (payment_data.map Prod.fst).Nodup →
      dmem billing_data "card_number" = false →
      dmem (drestrict (CustomerPaymentProfile.updateAttrs attrs payment_data
        billing_data) paymentFields) "expiration_date" = false ∧
      dmem (drestrict (CustomerPaymentProfile.updateAttrs attrs payment_data
        billing_data) paymentFields) "card_code" = false ∧
      (∀ v, dlookup payment_data "card_number" = some v →
        dlookup (drestrict (CustomerPaymentProfile.updateAttrs attrs
            payment_data billing_data) paymentFields) "card_number"
          = some (maskCardNumber v)) ∧
      (dmem payment_data "card_number" = false →
        dlookup (drestrict (CustomerPaymentProfile.updateAttrs attrs
            payment_data billing_data) paymentFields) "card_number"
          = dlookup attrs "card_number")) ∧
    (∀ attrs billing credit_card : Dict,
      dmem billing "card_number" = false →
      (∀ v, dlookup credit_card "card_number" = some v →
          ∃ raw, v = maskCardNumber raw) →
      maskedOrEmpty (dlookupD attrs "card_number" "") →
      dmem (drestrict (CustomerPaymentProfile.syncAttrs attrs billing
        credit_card) paymentFields) "expiration_date" = false ∧
      dmem (drestrict (CustomerPaymentProfile.syncAttrs attrs billing
        credit_card) paymentFields) "card_code" = false ∧
      maskedOrEmpty (dlookupD (drestrict (CustomerPaymentProfile.syncAttrs
        attrs billing credit_card) paymentFields) "card_number" "")) :=
  ⟨fun db cp kwargs payment_data billing_data mcr gwS gwPid row hbd hpd hkw
      hok =>
    create_stored_clauses db cp kwargs payment_data billing_data mcr gwS
      gwPid row hbd hpd hkw hok,
   fun attrs payment_data billing_data hpd hbdcn =>
    update_stored_clauses attrs payment_data billing_data hpd hbdcn,
   fun attrs billing credit_card hbcn hccm hprior =>
    sync_stored_clauses attrs billing credit_card hbcn hccm hprior⟩

def rowC2 : CustomerPaymentProfileRow :=
  { customer_profile := 0,
    attrs := [("first_name", "Ada"), ("city", "Paris"),
              ("card_number", "XXXX1111")] }

/-- C2 witness: each part of the invariant applied at concrete inputs
(a concrete creation result, concrete update data, a concrete masked
remote payload). -/
theorem C2_stored_rows_witness :
    (dmem rowC2.attrs "expiration_date" = false ∧
     dmem rowC2.attrs "card_code" = false ∧
     dlookup rowC2.attrs "card_number"
       = (dlookup (dupdate bdW pdW) "card_number").map maskCardNumber) ∧
    (dmem (drestrict (CustomerPaymentProfile.updateAttrs attrsW pdW bdW)
       paymentFields) "expiration_date" = false ∧
     dmem (drestrict (CustomerPaymentProfile.updateAttrs attrsW pdW bdW)
       paymentFields) "card_code" = false ∧
     (∀ v, dlookup pdW "card_number" = some v →
       dlookup (drestrict (CustomerPaymentProfile.updateAttrs attrsW pdW
           bdW) paymentFields) "card_number" = some (maskCardNumber v)) ∧
     (dmem pdW "card_number" = false →
       dlookup (drestrict (CustomerPaymentProfile.updateAttrs attrsW pdW
           bdW) paymentFields) "card_number"
         = dlookup attrsW "card_number")) ∧
    (dmem (drestrict (CustomerPaymentProfile.syncAttrs attrsW billingW
       creditCardW) paymentFields) "expiration_date" = false ∧
     dmem (drestrict (CustomerPaymentProfile.syncAttrs attrsW billingW
       creditCardW) paymentFields) "card_code" = false ∧
     maskedOrEmpty (dlookupD (drestrict (CustomerPaymentProfile.syncAttrs
       attrsW billingW creditCardW) paymentFields) "card_number" "")) :=
  ⟨C2_stored_rows_masked_no_sensitive_data.1 dbEmpty cpW [] pdW bdW false
     true "x" rowC2 (by decide) (by decide) rfl rfl,
   C2_stored_rows_masked_no_sensitive_data.2.1 attrsW pdW bdW (by decide)
     rfl,
   C2_stored_rows_masked_no_sensitive_data.2.2 attrsW billingW creditCardW
     rfl
     (fun v hv => ⟨"2222", by
       simp [dlookup, creditCardW] at hv
       rw [← hv]
       decide⟩)
     (Or.inr ⟨"9999", by decide⟩)⟩
